import Mathlib

/-!
# ESP8266AutoIOT: request dispatch and start-up, embedded in Lean

A shallow embedding of `src/ESP8266AutoIOT.cpp`.  Every member function of the
class becomes a Lean function that returns the list of calls it makes on its
collaborators (the status LED pin, the `ESP8266WebServer`, the application
callbacks, `WiFiManager`, `ESP`, `MDNS`, `ArduinoOTA`, `Serial`), in program
order.  The properties of the specification are then statements about these
call traces.
-/

namespace AutoIOT

/-! ## Collaborator vocabulary -/

/-- The `HTTPMethod` enumeration of the web server library. -/
inductive HTTPMethod
  | HTTP_ANY | HTTP_GET | HTTP_HEAD | HTTP_POST | HTTP_PUT | HTTP_PATCH | HTTP_DELETE
  | HTTP_OPTIONS
  deriving DecidableEq, Repr

open HTTPMethod

/-- Arduino logic level `LOW`. -/
def LOW : Nat := 0
/-- Arduino logic level `HIGH`. -/
def HIGH : Nat := 1

/-- How long to attempt to connect to saved WiFi before going into AP mode. -/
def CONNECT_TIMEOUT : Nat := 30
/-- Seconds the config portal waits. -/
def AP_TIMEOUT : Nat := 60

/-- What the web server exposes about the request being served: `method()`, `uri()`,
the enumerated arguments (`args()`, `argName(i)`, `arg(i)`) and the lookup by name
(`hasArg(name)`, `arg(name)`).  The lookup by name is kept apart from the enumerated
list, because the library stores a POST body under the name `plain` outside it. -/
structure Request where
  method : HTTPMethod
  uri : String
  args : List (String × String)
  named : String → Option String

namespace Request

/-- The value `server->hasArg(name)`. -/
def hasArg (req : Request) (name : String) : Bool := (req.named name).isSome

/-- The value `server->arg(name)`: the empty string when the argument is missing. -/
def arg (req : Request) (name : String) : String := (req.named name).getD ""

/-- The value `server->args()`. -/
def argCount (req : Request) : Nat := req.args.length

/-- The value `server->argName(i)`: the empty string when out of range. -/
def argName (req : Request) (i : Nat) : String := ((req.args.get? i).map Prod.fst).getD ""

/-- The value `server->arg(i)`: the empty string when out of range. -/
def argAt (req : Request) (i : Nat) : String := ((req.args.get? i).map Prod.snd).getD ""

end Request

/-- An application callback `void fn()`, known by a label. -/
structure VoidCallback where
  label : String

/-- An application callback `String fn()`: a label and the string it returns. -/
structure StringCallback where
  label : String
  result : String

/-- An application callback `void fn(String)`. -/
structure VoidCallbackStr where
  label : String

/-- An application callback `String fn(String)`: a label and what it returns on a body. -/
structure StringCallbackStr where
  label : String
  result : String → String

/-- The five bound member functions that `get`, `post` and `root` hand to `server->on`,
each with the arguments `std::bind` fixes. -/
inductive Handler
  | getStr (response : String) (isHtml : Bool)
  | getVoidFn (fn : VoidCallback)
  | getStrFn (fn : StringCallback) (isHtml : Bool)
  | postVoidFn (fn : VoidCallbackStr)
  | postStrFn (fn : StringCallbackStr)

/-- One call made on a collaborator. -/
inductive Event
  -- status LED
  | pinModeOutput (pin : Nat)
  | digitalWrite (pin : Nat) (value : Nat)
  -- queries on the web server
  | serverMethod
  | serverUri
  | serverArgs
  | serverArgName (i : Nat)
  | serverArgAt (i : Nat)
  | serverHasArg (name : String)
  | serverArg (name : String)
  -- responses
  | sendHeader (name value : String)
  | send (code : Nat) (contentType : Option String) (content : String)
  -- application callbacks
  | callVoid (label : String)
  | callString (label : String)
  | callVoidStr (label : String) (body : String)
  | callStringStr (label : String) (body : String)
  -- routing table
  | on (path : String) (h : Handler)
  | onNotFound
  | serverBegin
  -- network, restart, discovery, firmware update, diagnostics
  | wifiModeSTA
  | wifiHostname (name : String)
  | setConnectTimeout (s : Nat)
  | setTimeout (s : Nat)
  | setCountry (c : String)
  | autoConnect (accessPoint password : String)
  | restart
  | mdnsBegin (name : String)
  | otaSetPassword (password : String)
  | otaBegin
  | println (msg : String)
  | delay (ms : Nat)

/-! ## The object -/

/-- The data members of `ESP8266AutoIOT` that the source reads or writes. -/
structure ESP8266AutoIOT where
  _accessPoint : Option String
  _password : Option String
  _otaEnabled : Bool
  _hasBegun : Bool
  _LED_ON : Nat
  _LED_OFF : Nat
  _LED : Nat
  _ledEnabled : Bool
  _corsOrigin : String
  _corsEnabled : Bool
  _rootHandled : Bool

/-- Modelled from the spec: the state of the data members before a constructor body
runs, which the class declaration in `ESP8266AutoIOT.h` (missing from the sources)
fixes.  The spec's RootHandledFlag records whether the application registered its own
root handler, so it starts out false; the access-point name and password are unset. -/
def declared : ESP8266AutoIOT :=
  { _accessPoint := none, _password := none, _otaEnabled := false, _hasBegun := false,
    _LED_ON := 0, _LED_OFF := 0, _LED := 0, _ledEnabled := false,
    _corsOrigin := "", _corsEnabled := false, _rootHandled := false }

namespace ESP8266AutoIOT

/-- Member function `_setup(enableOTA)`.  `LED_BUILTIN` is the board's pin number. -/
def _setup (self : ESP8266AutoIOT) (LED_BUILTIN : Nat) (enableOTA : Bool) : ESP8266AutoIOT :=
  let self := { self with _otaEnabled := enableOTA, _hasBegun := false }
  let self := if self._accessPoint.isNone then { self with _accessPoint := some "esp8266" } else self
  let self := if self._password.isNone then { self with _password := some "newcouch" } else self
  let self := { self with _LED_ON := LOW, _LED_OFF := HIGH, _LED := LED_BUILTIN,
                          _ledEnabled := true }
  { self with _corsOrigin := "*", _corsEnabled := false }

/-- Constructor `ESP8266AutoIOT()`. -/
def new (LED_BUILTIN : Nat) : ESP8266AutoIOT := declared._setup LED_BUILTIN false

/-- Constructor `ESP8266AutoIOT(bool enableOTA)`. -/
def newOTA (LED_BUILTIN : Nat) (enableOTA : Bool) : ESP8266AutoIOT :=
  declared._setup LED_BUILTIN enableOTA

/-- Constructor `ESP8266AutoIOT(char* accessPoint, char* password)`; a null pointer is
`none`. -/
def newAP (LED_BUILTIN : Nat) (accessPoint password : Option String) : ESP8266AutoIOT :=
  ESP8266AutoIOT._setup { declared with _accessPoint := accessPoint, _password := password }
    LED_BUILTIN true

/-- Constructor `ESP8266AutoIOT(char* accessPoint, char* password, bool enableOTA)`. -/
def newAPOTA (LED_BUILTIN : Nat) (accessPoint password : Option String) (enableOTA : Bool) :
    ESP8266AutoIOT :=
  ESP8266AutoIOT._setup { declared with _accessPoint := accessPoint, _password := password }
    LED_BUILTIN enableOTA

/-- Member function `_digitalWrite(value)`. -/
def _digitalWrite (self : ESP8266AutoIOT) (value : Nat) : List Event :=
  if self._ledEnabled then [Event.digitalWrite self._LED value] else []

/-- Member function `_ledOn()`. -/
def _ledOn (self : ESP8266AutoIOT) : List Event := self._digitalWrite self._LED_ON

/-- Member function `_ledOff()`. -/
def _ledOff (self : ESP8266AutoIOT) : List Event := self._digitalWrite self._LED_OFF

/-- Member function `_sendCorsHeaderIfEnabled()`. -/
def _sendCorsHeaderIfEnabled (self : ESP8266AutoIOT) : List Event :=
  if self._corsEnabled then [Event.sendHeader "Access-Control-Allow-Origin" self._corsOrigin]
  else []

/-- Member function `_handleGetRequestVoidFn(fn)`. -/
def _handleGetRequestVoidFn (self : ESP8266AutoIOT) (req : Request) (fn : VoidCallback) :
    List Event :=
  self._ledOn ++ [Event.serverMethod] ++
  (if req.method = HTTP_GET then
    self._sendCorsHeaderIfEnabled ++
    [Event.callVoid fn.label] ++
    [Event.send 200 (some "text/plain") "Success"]
  else
    [Event.send 405 (some "text/plain") "Method Not Allowed"]) ++
  self._ledOff

/-- Member function `_handleGetRequestStr(response, isHtml)`. -/
def _handleGetRequestStr (self : ESP8266AutoIOT) (req : Request) (response : String)
    (isHtml : Bool) : List Event :=
  self._ledOn ++ [Event.serverMethod] ++
  (if req.method = HTTP_GET then
    self._sendCorsHeaderIfEnabled ++
    (let contentType := if isHtml then "text/html" else "text/plain"
     [Event.send 200 (some contentType) response])
  else
    [Event.send 405 (some "text/plain") "Method Not Allowed"]) ++
  self._ledOff

/-- Member function `_handleGetRequestStrFn(fn, isHtml)`. -/
def _handleGetRequestStrFn (self : ESP8266AutoIOT) (req : Request) (fn : StringCallback)
    (isHtml : Bool) : List Event :=
  self._ledOn ++ [Event.serverMethod] ++
  (if req.method = HTTP_GET then
    self._sendCorsHeaderIfEnabled ++
    (let response := fn.result
     let contentType := if isHtml then "text/html" else "application/json"
     [Event.callString fn.label] ++
     [Event.send 200 (some contentType) response])
  else
    [Event.send 405 (some "text/plain") "Method Not Allowed"]) ++
  self._ledOff

/-- Member function `_handlePostRequestVoidFn(fn)`.  The branch for a missing body ends in
`return`, so nothing of the function runs after its `send(400)`. -/
def _handlePostRequestVoidFn (self : ESP8266AutoIOT) (req : Request) (fn : VoidCallbackStr) :
    List Event :=
  self._ledOn ++ [Event.serverMethod] ++
  (if req.method = HTTP_POST then
    self._sendCorsHeaderIfEnabled ++ [Event.serverHasArg "plain"] ++
    (if req.hasArg "plain" = false then
      [Event.send 400 none ""]
      -- return
    else
      [Event.send 200 none ""] ++
      (let body := req.arg "plain"
       [Event.serverArg "plain"] ++
       [Event.callVoidStr fn.label body]) ++
      self._ledOff)
  else
    [Event.send 405 (some "text/plain") "Method Not Allowed"] ++
    self._ledOff)

/-- Member function `_handlePostRequestStrFn(fn)`.  The branch for a missing body ends in
`return`. -/
def _handlePostRequestStrFn (self : ESP8266AutoIOT) (req : Request) (fn : StringCallbackStr) :
    List Event :=
  self._ledOn ++ [Event.serverMethod] ++
  (if req.method = HTTP_POST then
    self._sendCorsHeaderIfEnabled ++ [Event.serverHasArg "plain"] ++
    (if req.hasArg "plain" = false then
      [Event.send 400 none ""]
      -- return
    else
      (let body := req.arg "plain"
       let response := fn.result body
       [Event.serverArg "plain"] ++
       [Event.callStringStr fn.label body] ++
       [Event.send 200 (some "application/json") response]) ++
      self._ledOff)
  else
    [Event.send 405 (some "text/plain") "Method Not Allowed"] ++
    self._ledOff)

/-- The text one pass of the argument loop appends to the message. -/
def argLine (name value : String) : String := " " ++ name ++ ": " ++ value ++ "\n"

/-- The `for` loop of `_handleNotFound`, from the state in which the counter holds `i`,
the message so far is `message` and the calls made so far are `tr`.  The counter is a
`uint8_t`: `i++` wraps at 256, and the test `i < server->args()` compares it, promoted
to `int`, with the argument count.  `fuel` bounds the number of times the test is
evaluated; `none` means the loop has not ended within that bound. -/
def notFoundLoop (req : Request) :
    Nat → Nat → String → List Event → Option (String × List Event)
  | 0, _, _, _ => none
  | fuel + 1, i, message, tr =>
    if i < req.argCount then
      notFoundLoop req fuel ((i + 1) % 256)
        (message ++ argLine (req.argName i) (req.argAt i))
        (tr ++ [Event.serverArgs, Event.serverArgName i, Event.serverArgAt i])
    else
      some (message, tr ++ [Event.serverArgs])

/-- Member function `_handleNotFound()`; `none` when the argument loop does not end within
`fuel` tests. -/
def _handleNotFound (self : ESP8266AutoIOT) (req : Request) (fuel : Nat) :
    Option (List Event) :=
  let message := "File Not Found\n\n"
  let message := message ++ "URI: "
  let message := message ++ req.uri
  let message := message ++ "\nMethod: "
  let message := message ++ (if req.method = HTTP_GET then "GET" else "POST")
  let message := message ++ "\nArguments: "
  let message := message ++ toString req.argCount
  let message := message ++ "\n"
  match notFoundLoop req fuel 0 message
      (self._ledOn ++ [Event.serverUri, Event.serverMethod, Event.serverArgs]) with
  | none => none
  | some (message, tr) =>
    some (tr ++ [Event.send 404 (some "text/plain") message] ++ self._ledOff)

/-- Member function `get(path, fn, isHtml)`. -/
def getStrFnHtml (self : ESP8266AutoIOT) (path : String) (fn : StringCallback) (isHtml : Bool) :
    ESP8266AutoIOT × List Event :=
  (self, [Event.on path (Handler.getStrFn fn isHtml)])

/-- Member function `get(path, fn)` for a `stringCallback`. -/
def getStrFn (self : ESP8266AutoIOT) (path : String) (fn : StringCallback) :
    ESP8266AutoIOT × List Event :=
  (self, [Event.on path (Handler.getStrFn fn false)])

/-- Member function `get(path, fn)` for a `voidCallback`. -/
def getVoidFn (self : ESP8266AutoIOT) (path : String) (fn : VoidCallback) :
    ESP8266AutoIOT × List Event :=
  (self, [Event.on path (Handler.getVoidFn fn)])

/-- Member function `get(path, response)`. -/
def getStr (self : ESP8266AutoIOT) (path : String) (response : String) :
    ESP8266AutoIOT × List Event :=
  (self, [Event.on path (Handler.getStr response false)])

/-- Member function `get(path, response, isHtml)`. -/
def getStrHtml (self : ESP8266AutoIOT) (path : String) (response : String) (isHtml : Bool) :
    ESP8266AutoIOT × List Event :=
  (self, [Event.on path (Handler.getStr response isHtml)])

/-- Member function `post(path, fn)` for a `voidCallbackStr`. -/
def postVoidFn (self : ESP8266AutoIOT) (path : String) (fn : VoidCallbackStr) :
    ESP8266AutoIOT × List Event :=
  (self, [Event.on path (Handler.postVoidFn fn)])

/-- Member function `post(path, fn)` for a `stringCallbackStr`. -/
def postStrFn (self : ESP8266AutoIOT) (path : String) (fn : StringCallbackStr) :
    ESP8266AutoIOT × List Event :=
  (self, [Event.on path (Handler.postStrFn fn)])

/-- Member function `root(fn)`. -/
def rootFn (self : ESP8266AutoIOT) (fn : StringCallback) : ESP8266AutoIOT × List Event :=
  let self := { self with _rootHandled := true }
  self.getStrFnHtml "/" fn true

/-- Member function `root(response)`. -/
def root (self : ESP8266AutoIOT) (response : String) : ESP8266AutoIOT × List Event :=
  let self := { self with _rootHandled := true }
  self.getStrHtml "/" response true

/-- Member function `_handleDefaultRoot()`. -/
def _handleDefaultRoot (self : ESP8266AutoIOT) : ESP8266AutoIOT × List Event :=
  self.root "Success"

/-- Member function `disableLED()`. -/
def disableLED (self : ESP8266AutoIOT) : ESP8266AutoIOT :=
  { self with _ledEnabled := false }

/-- Member function `enableCors()`. -/
def enableCors (self : ESP8266AutoIOT) : ESP8266AutoIOT :=
  { self with _corsEnabled := true }

/-- Member function `enableCors(origin)`. -/
def enableCorsOrigin (self : ESP8266AutoIOT) (origin : String) : ESP8266AutoIOT :=
  { self with _corsEnabled := true, _corsOrigin := origin }

end ESP8266AutoIOT

/-- What the collaborators answer during one run of `begin()`: the result of
`wifiManager.autoConnect`, the result of `MDNS.begin`, and whether `ESP.restart()`
hands control back to its caller before the device reboots. -/
structure Boot where
  autoConnect : Bool
  mdns : Bool
  restartReturns : Bool

namespace ESP8266AutoIOT

/-- The part of `begin()` that follows the `autoConnect` block. -/
def beginConnected (self : ESP8266AutoIOT) (boot : Boot) : ESP8266AutoIOT × List Event :=
  let tr := [Event.println "Connected! to WiFi!"]
  let tr := tr ++ [Event.mdnsBegin (self._accessPoint.getD "")]
  let tr := if boot.mdns then tr ++ [Event.println "MDNS responder started"] else tr
  let (self, tr) :=
    if !self._rootHandled then
      let (self, tr1) := self._handleDefaultRoot
      (self, tr ++ tr1)
    else (self, tr)
  let tr := tr ++ [Event.onNotFound]
  let tr := tr ++ [Event.serverBegin, Event.println "HTTP server started"]
  let tr :=
    if self._otaEnabled then
      tr ++ [Event.otaSetPassword (self._password.getD ""), Event.otaBegin,
             Event.println "ArduinoOTA enabled!"]
    else
      tr ++ [Event.println "ArduinoOTA disabled."]
  (self, tr ++ self._ledOff)

/-- Member function `begin()`.  When `autoConnect` fails the source calls `ESP.restart()` and
has no `return`: the rest of the function runs exactly when `ESP.restart()` comes back. -/
def begin (self : ESP8266AutoIOT) (boot : Boot) : ESP8266AutoIOT × List Event :=
  let self := { self with _hasBegun := true }
  let tr := if self._ledEnabled then [Event.pinModeOutput self._LED] else []
  let tr := tr ++ [Event.wifiModeSTA, Event.wifiHostname (self._accessPoint.getD "")]
  let tr := tr ++ [Event.setConnectTimeout CONNECT_TIMEOUT, Event.setTimeout AP_TIMEOUT,
                   Event.setCountry "US"]
  let tr := tr ++ [Event.autoConnect (self._accessPoint.getD "") (self._password.getD "")]
  if !boot.autoConnect then
    let tr := tr ++ [Event.println "%%% Failed to connect and hit timeout, restarting",
                     Event.delay 100, Event.restart]
    if boot.restartReturns then
      let (self, tr1) := self.beginConnected boot
      (self, tr ++ [Event.delay 5000] ++ tr1)
    else
      (self, tr)
  else
    let (self, tr1) := self.beginConnected boot
    (self, tr ++ tr1)

end ESP8266AutoIOT

/-- Running a bound route handler on the request being served. -/
def Handler.run (h : Handler) (self : ESP8266AutoIOT) (req : Request) : List Event :=
  match h with
  | Handler.getStr response isHtml => self._handleGetRequestStr req response isHtml
  | Handler.getVoidFn fn => self._handleGetRequestVoidFn req fn
  | Handler.getStrFn fn isHtml => self._handleGetRequestStrFn req fn isHtml
  | Handler.postVoidFn fn => self._handlePostRequestVoidFn req fn
  | Handler.postStrFn fn => self._handlePostRequestStrFn req fn

/-- The method a route handler compares `server->method()` with. -/
def Handler.declaredMethod : Handler → HTTPMethod
  | Handler.getStr _ _ => HTTP_GET
  | Handler.getVoidFn _ => HTTP_GET
  | Handler.getStrFn _ _ => HTTP_GET
  | Handler.postVoidFn _ => HTTP_POST
  | Handler.postStrFn _ => HTTP_POST

/-! ## A whole program: construction, API calls, `begin()` -/

/-- The four constructors. -/
inductive Ctor
  | default
  | ota (enableOTA : Bool)
  | ap (accessPoint password : Option String)
  | apOta (accessPoint password : Option String) (enableOTA : Bool)

/-- The object a constructor leaves behind. -/
def Ctor.build (LED_BUILTIN : Nat) : Ctor → ESP8266AutoIOT
  | Ctor.default => ESP8266AutoIOT.new LED_BUILTIN
  | Ctor.ota enableOTA => ESP8266AutoIOT.newOTA LED_BUILTIN enableOTA
  | Ctor.ap accessPoint password => ESP8266AutoIOT.newAP LED_BUILTIN accessPoint password
  | Ctor.apOta accessPoint password enableOTA =>
    ESP8266AutoIOT.newAPOTA LED_BUILTIN accessPoint password enableOTA

/-- A call of the public API that an application makes before `begin()`. -/
inductive Call
  | getStrFnHtml (path : String) (fn : StringCallback) (isHtml : Bool)
  | getStrFn (path : String) (fn : StringCallback)
  | getVoidFn (path : String) (fn : VoidCallback)
  | getStr (path : String) (response : String)
  | getStrHtml (path : String) (response : String) (isHtml : Bool)
  | postVoidFn (path : String) (fn : VoidCallbackStr)
  | postStrFn (path : String) (fn : StringCallbackStr)
  | rootFn (fn : StringCallback)
  | root (response : String)
  | disableLED
  | enableCors
  | enableCorsOrigin (origin : String)

/-- Making one API call. -/
def Call.apply (self : ESP8266AutoIOT) : Call → ESP8266AutoIOT × List Event
  | Call.getStrFnHtml path fn isHtml => self.getStrFnHtml path fn isHtml
  | Call.getStrFn path fn => self.getStrFn path fn
  | Call.getVoidFn path fn => self.getVoidFn path fn
  | Call.getStr path response => self.getStr path response
  | Call.getStrHtml path response isHtml => self.getStrHtml path response isHtml
  | Call.postVoidFn path fn => self.postVoidFn path fn
  | Call.postStrFn path fn => self.postStrFn path fn
  | Call.rootFn fn => self.rootFn fn
  | Call.root response => self.root response
  | Call.disableLED => (self.disableLED, [])
  | Call.enableCors => (self.enableCors, [])
  | Call.enableCorsOrigin origin => (self.enableCorsOrigin origin, [])

/-- Making a sequence of API calls, in order. -/
def runCalls (self : ESP8266AutoIOT) : List Call → ESP8266AutoIOT × List Event
  | [] => (self, [])
  | c :: cs =>
    let (self1, tr1) := c.apply self
    let (self2, tr2) := runCalls self1 cs
    (self2, tr1 ++ tr2)

/-- The calls a sketch makes in `setup()`: the API calls, then `begin()`. -/
def program (self : ESP8266AutoIOT) (calls : List Call) (boot : Boot) :
    ESP8266AutoIOT × List Event :=
  let (self1, tr1) := runCalls self calls
  let (self2, tr2) := self1.begin boot
  (self2, tr1 ++ tr2)

/-- Whether the call is `root(...)`. -/
def Call.isRoot : Call → Bool
  | Call.rootFn _ => true
  | Call.root _ => true
  | _ => false

/-- Whether the call is a `get(...)` whose path is `/`. -/
def Call.isGetSlash : Call → Bool
  | Call.getStrFnHtml path _ _ => path == "/"
  | Call.getStrFn path _ => path == "/"
  | Call.getVoidFn path _ => path == "/"
  | Call.getStr path _ => path == "/"
  | Call.getStrHtml path _ _ => path == "/"
  | _ => false

/-- Whether the call is a `post(...)` whose path is `/`. -/
def Call.isPostSlash : Call → Bool
  | Call.postVoidFn path _ => path == "/"
  | Call.postStrFn path _ => path == "/"
  | _ => false

/-! ## Reading a trace -/

/-- The `send` calls of a trace: status, content type, content. -/
def sends : List Event → List (Nat × Option String × String)
  | [] => []
  | Event.send code contentType content :: rest => (code, contentType, content) :: sends rest
  | _ :: rest => sends rest

/-- The status codes sent, in order. -/
def statuses (tr : List Event) : List Nat := (sends tr).map Prod.fst

/-- Whether the event is the invocation of an application callback. -/
def Event.isCallback : Event → Bool
  | Event.callVoid _ => true
  | Event.callString _ => true
  | Event.callVoidStr _ _ => true
  | Event.callStringStr _ _ => true
  | _ => false

/-- The callback invocations of a trace, in order. -/
def callbacks : List Event → List Event
  | [] => []
  | e :: rest => if e.isCallback then e :: callbacks rest else callbacks rest

/-- Whether the event is a `send`. -/
def Event.isSend : Event → Bool
  | Event.send _ _ _ => true
  | _ => false

/-- The levels written to the LED pin, in order. -/
def ledWrites : List Event → List Nat
  | [] => []
  | Event.digitalWrite _ value :: rest => value :: ledWrites rest
  | _ :: rest => ledWrites rest

/-- Whether the event is the examination of the request method. -/
def Event.isServerMethod : Event → Bool
  | Event.serverMethod => true
  | _ => false

/-- The handlers bound with `server->on`, in order. -/
def bindings : List Event → List (String × Handler)
  | [] => []
  | Event.on path h :: rest => (path, h) :: bindings rest
  | _ :: rest => bindings rest

/-- The number of `server->on` calls whose path is `/`. -/
def rootBindingCount (tr : List Event) : Nat :=
  ((bindings tr).filter (fun b => b.1 == "/")).length

/-- A response as the client receives it: what `send` was given, and the headers
handed to `sendHeader` since the previous `send`. -/
structure Response where
  code : Nat
  contentType : Option String
  content : String
  headers : List (String × String)

/-- The web server keeps the headers given to `sendHeader` until the next `send`,
which transmits them with its response and forgets them. -/
def responsesFrom : List (String × String) → List Event → List Response
  | _, [] => []
  | pending, Event.sendHeader name value :: rest => responsesFrom (pending ++ [(name, value)]) rest
  | pending, Event.send code contentType content :: rest =>
    { code := code, contentType := contentType, content := content, headers := pending } ::
      responsesFrom [] rest
  | pending, _ :: rest => responsesFrom pending rest

/-- The responses of a trace that starts with no header pending. -/
def responses (tr : List Event) : List Response := responsesFrom [] tr

/-- The values of the `Access-Control-Allow-Origin` headers a response carries. -/
def Response.corsOrigins (r : Response) : List String :=
  (r.headers.filter (fun h => h.1 == "Access-Control-Allow-Origin")).map Prod.snd

/-- Whether the event is `ESP.restart()`. -/
def Event.isRestart : Event → Bool
  | Event.restart => true
  | _ => false

/-- Whether the event is `wifiManager.autoConnect(...)`. -/
def Event.isAutoConnect : Event → Bool
  | Event.autoConnect _ _ => true
  | _ => false

/-- Whether the event installs the not-found responder, starts the HTTP server or arms
the firmware-update service. -/
def Event.isServiceStart : Event → Bool
  | Event.onNotFound => true
  | Event.serverBegin => true
  | Event.otaSetPassword _ => true
  | Event.otaBegin => true
  | _ => false

/-- The string `s` occurs in `body`. -/
def occursIn (s body : String) : Prop := ∃ p q : String, body = p ++ s ++ q

/-- The argument lines of a not-found body, one per argument, in argument order. -/
def argLines : List (String × String) → String
  | [] => ""
  | a :: rest => ESP8266AutoIOT.argLine a.1 a.2 ++ argLines rest

/-- The name of a method as the not-found body is meant to print it. -/
def HTTPMethod.name : HTTPMethod → String
  | HTTP_ANY => "ANY"
  | HTTP_GET => "GET"
  | HTTP_HEAD => "HEAD"
  | HTTP_POST => "POST"
  | HTTP_PUT => "PUT"
  | HTTP_PATCH => "PATCH"
  | HTTP_DELETE => "DELETE"
  | HTTP_OPTIONS => "OPTIONS"

/-- The `send` calls and callback invocations of a trace, in order. -/
def exchange : List Event → List Event
  | [] => []
  | e :: rest => if e.isSend || e.isCallback then e :: exchange rest else exchange rest

/-- Whether a dispatch takes the missing-body exit of a POST handler. -/
def Handler.missingBody (h : Handler) (req : Request) : Bool :=
  h.declaredMethod == HTTP_POST && req.method == HTTP_POST && !req.hasArg "plain"

/-- Whether the event hands a header or a response to the web server. -/
def Event.isResponsePart : Event → Bool
  | Event.sendHeader _ _ => true
  | Event.send _ _ _ => true
  | _ => false

/-! ## Sample inputs -/

/-- A request for `/data` with the given method and no argument at all. -/
def bareRequest (m : HTTPMethod) : Request :=
  { method := m, uri := "/data", args := [], named := fun _ => none }

/-- A POST to `/data` whose body is `body`. -/
def bodyRequest (body : String) : Request :=
  { method := HTTP_POST, uri := "/data", args := [],
    named := fun name => if name = "plain" then some body else none }

/-- The request `GET /missing?x=1`. -/
def missingRequest : Request :=
  { method := HTTP_GET, uri := "/missing", args := [("x", "1")],
    named := fun name => if name = "x" then some "1" else none }

/-- A request for `/missing` with 256 arguments `a=b`. -/
def crowdedRequest : Request :=
  { method := HTTP_GET, uri := "/missing", args := List.replicate 256 ("a", "b"),
    named := fun name => if name = "a" then some "b" else none }

/-- The object `ESP8266AutoIOT app;` on a board whose built-in LED is pin 2. -/
def app : ESP8266AutoIOT := Ctor.build 2 Ctor.default

/-! ## Trace lemmas -/

theorem sends_append (a b : List Event) : sends (a ++ b) = sends a ++ sends b := by
  induction a with
  | nil => rfl
  | cons e rest ih => cases e <;> simp [sends, ih]

theorem ledWrites_append (a b : List Event) : ledWrites (a ++ b) = ledWrites a ++ ledWrites b := by
  induction a with
  | nil => rfl
  | cons e rest ih => cases e <;> simp [ledWrites, ih]

theorem bindings_append (a b : List Event) : bindings (a ++ b) = bindings a ++ bindings b := by
  induction a with
  | nil => rfl
  | cons e rest ih => cases e <;> simp [bindings, ih]

theorem sends_digitalWrite (self : ESP8266AutoIOT) (v : Nat) :
    sends (self._digitalWrite v) = [] := by
  unfold ESP8266AutoIOT._digitalWrite; split <;> rfl

theorem callbacks_digitalWrite (self : ESP8266AutoIOT) (v : Nat) :
    callbacks (self._digitalWrite v) = [] := by
  unfold ESP8266AutoIOT._digitalWrite; split <;> rfl

theorem sends_cors (self : ESP8266AutoIOT) : sends self._sendCorsHeaderIfEnabled = [] := by
  unfold ESP8266AutoIOT._sendCorsHeaderIfEnabled; split <;> rfl

theorem callbacks_cors (self : ESP8266AutoIOT) :
    callbacks self._sendCorsHeaderIfEnabled = [] := by
  unfold ESP8266AutoIOT._sendCorsHeaderIfEnabled; split <;> rfl

theorem callbacks_append (a b : List Event) :
    callbacks (a ++ b) = callbacks a ++ callbacks b := by
  induction a with
  | nil => rfl
  | cons e rest ih => by_cases he : e.isCallback <;> simp [callbacks, he, ih]

/-! ## Method enforcement -/

/-- C1: a request whose method differs from the method the route handler expects gets
exactly one `send`, which is `405 text/plain "Method Not Allowed"`, and no application
callback is invoked; this holds for each of the five handler variants. -/
theorem method_mismatch_sends_405 (h : Handler) (self : ESP8266AutoIOT) (req : Request)
    (hm : req.method ≠ h.declaredMethod) :
    sends (h.run self req) = [(405, some "text/plain", "Method Not Allowed")] ∧
    callbacks (h.run self req) = [] := by
  cases h <;>
    simp [Handler.declaredMethod] at hm <;>
    simp [Handler.run, ESP8266AutoIOT._handleGetRequestStr,
      ESP8266AutoIOT._handleGetRequestVoidFn, ESP8266AutoIOT._handleGetRequestStrFn,
      ESP8266AutoIOT._handlePostRequestVoidFn, ESP8266AutoIOT._handlePostRequestStrFn,
      hm, sends_append, callbacks_append, ESP8266AutoIOT._ledOn, ESP8266AutoIOT._ledOff,
      sends_digitalWrite, callbacks_digitalWrite, sends, callbacks, Event.isCallback]

/-- Witness for `method_mismatch_sends_405`: a POST to a fixed-string GET route. -/
theorem method_mismatch_sends_405_witness :
    (bareRequest HTTP_POST).method ≠ (Handler.getStr "hello" false).declaredMethod ∧
    sends ((Handler.getStr "hello" false).run app (bareRequest HTTP_POST))
      = [(405, some "text/plain", "Method Not Allowed")] ∧
    callbacks ((Handler.getStr "hello" false).run app (bareRequest HTTP_POST)) = [] :=
  ⟨by decide, method_mismatch_sends_405 _ _ _ (by decide)⟩

/-! ## POST bodies -/

/-- C2: on a POST request, both POST handlers answer a missing body with a single `send`
of status 400 and invoke no callback; when the body is present they invoke the callback
exactly once, on the value of `arg("plain")`, and send no 400. -/
theorem post_body_rule (self : ESP8266AutoIOT) (req : Request) (fn : VoidCallbackStr)
    (gn : StringCallbackStr) (hm : req.method = HTTP_POST) :
    (req.hasArg "plain" = false →
      statuses (self._handlePostRequestVoidFn req fn) = [400] ∧
      callbacks (self._handlePostRequestVoidFn req fn) = [] ∧
      statuses (self._handlePostRequestStrFn req gn) = [400] ∧
      callbacks (self._handlePostRequestStrFn req gn) = []) ∧
    (req.hasArg "plain" = true →
      callbacks (self._handlePostRequestVoidFn req fn)
        = [Event.callVoidStr fn.label (req.arg "plain")] ∧
      400 ∉ statuses (self._handlePostRequestVoidFn req fn) ∧
      callbacks (self._handlePostRequestStrFn req gn)
        = [Event.callStringStr gn.label (req.arg "plain")] ∧
      400 ∉ statuses (self._handlePostRequestStrFn req gn)) := by
  constructor <;> intro hb <;>
    simp [statuses, ESP8266AutoIOT._handlePostRequestVoidFn,
      ESP8266AutoIOT._handlePostRequestStrFn, hm, hb, sends_append, callbacks_append,
      ESP8266AutoIOT._ledOn, ESP8266AutoIOT._ledOff, sends_digitalWrite,
      callbacks_digitalWrite, sends_cors, callbacks_cors, sends, callbacks, Event.isCallback]

/-- Witness for `post_body_rule`: a POST without a body and a POST with body `on`. -/
theorem post_body_rule_witness :
    (statuses (app._handlePostRequestVoidFn (bareRequest HTTP_POST) ⟨"toggle"⟩) = [400] ∧
      callbacks (app._handlePostRequestVoidFn (bareRequest HTTP_POST) ⟨"toggle"⟩) = []) ∧
    callbacks (app._handlePostRequestStrFn (bodyRequest "on") ⟨"echo", fun b => b⟩)
      = [Event.callStringStr "echo" "on"] :=
  ⟨⟨((post_body_rule app (bareRequest HTTP_POST) ⟨"toggle"⟩ ⟨"echo", fun b => b⟩ rfl).1 rfl).1,
    ((post_body_rule app (bareRequest HTTP_POST) ⟨"toggle"⟩ ⟨"echo", fun b => b⟩ rfl).1 rfl).2.1⟩,
   ((post_body_rule app (bodyRequest "on") ⟨"toggle"⟩ ⟨"echo", fun b => b⟩ rfl).2 rfl).2.2.1⟩

theorem exchange_append (a b : List Event) : exchange (a ++ b) = exchange a ++ exchange b := by
  induction a with
  | nil => rfl
  | cons e rest ih => by_cases he : (e.isSend || e.isCallback) = true <;> simp [exchange, he, ih]

theorem exchange_digitalWrite (self : ESP8266AutoIOT) (v : Nat) :
    exchange (self._digitalWrite v) = [] := by
  unfold ESP8266AutoIOT._digitalWrite; split <;> rfl

theorem exchange_cors (self : ESP8266AutoIOT) : exchange self._sendCorsHeaderIfEnabled = [] := by
  unfold ESP8266AutoIOT._sendCorsHeaderIfEnabled; split <;> rfl

/-- C8: on a POST request with a body, `_handlePostRequestVoidFn` first sends status 200
with an empty body, then invokes the callback on the body, and sends nothing after the
callback: these two are all the `send` calls and callback invocations of the dispatch,
in this order. -/
theorem post_void_acknowledges_first (self : ESP8266AutoIOT) (req : Request)
    (fn : VoidCallbackStr) (hm : req.method = HTTP_POST) (hb : req.hasArg "plain" = true) :
    exchange (self._handlePostRequestVoidFn req fn)
      = [Event.send 200 none "", Event.callVoidStr fn.label (req.arg "plain")] := by
  simp [ESP8266AutoIOT._handlePostRequestVoidFn, hm, hb, exchange_append,
    ESP8266AutoIOT._ledOn, ESP8266AutoIOT._ledOff, exchange_digitalWrite, exchange_cors,
    exchange, Event.isSend, Event.isCallback]

/-- Witness for `post_void_acknowledges_first`: a POST with body `on`. -/
theorem post_void_acknowledges_first_witness :
    (bodyRequest "on").method = HTTP_POST ∧ (bodyRequest "on").hasArg "plain" = true ∧
    exchange (app._handlePostRequestVoidFn (bodyRequest "on") ⟨"toggle"⟩)
      = [Event.send 200 none "", Event.callVoidStr "toggle" "on"] :=
  ⟨rfl, rfl, post_void_acknowledges_first app (bodyRequest "on") ⟨"toggle"⟩ rfl rfl⟩

/-! ## The status LED around a dispatch -/

/-- With the LED enabled, every dispatch starts with the write of the on level, ahead
of the examination of the method; it ends with the write of the off level unless it
takes the missing-body exit, in which case the on level is the only write. -/
theorem led_writes_of_dispatch (h : Handler) (self : ESP8266AutoIOT) (req : Request)
    (hl : self._ledEnabled = true) :
    (∃ rest, h.run self req
        = Event.digitalWrite self._LED self._LED_ON :: Event.serverMethod :: rest ∧
      rest.all (fun e => !e.isServerMethod) = true) ∧
    ledWrites (h.run self req)
      = if h.missingBody req then [self._LED_ON] else [self._LED_ON, self._LED_OFF] := by
  cases h <;> by_cases hg : req.method = HTTP_GET <;> by_cases hp : req.method = HTTP_POST <;>
    cases hb : req.hasArg "plain" <;> cases hc : self._corsEnabled <;>
    simp_all [Handler.run, Handler.missingBody, Handler.declaredMethod,
      ESP8266AutoIOT._handleGetRequestStr,
      ESP8266AutoIOT._handleGetRequestVoidFn, ESP8266AutoIOT._handleGetRequestStrFn,
      ESP8266AutoIOT._handlePostRequestVoidFn, ESP8266AutoIOT._handlePostRequestStrFn,
      ESP8266AutoIOT._ledOn, ESP8266AutoIOT._ledOff, ESP8266AutoIOT._digitalWrite,
      ESP8266AutoIOT._sendCorsHeaderIfEnabled, ledWrites, Event.isServerMethod]

/-- C4, at a POST without a body: both POST handlers write the on level (`LOW`) to the LED
once and return without writing the off level (`HIGH`), although the LED is enabled. -/
theorem post_missing_body_leaves_led_on :
    app._ledEnabled = true ∧ app._LED_ON = LOW ∧ app._LED_OFF = HIGH ∧
    statuses (app._handlePostRequestVoidFn (bareRequest HTTP_POST) ⟨"toggle"⟩) = [400] ∧
    ledWrites (app._handlePostRequestVoidFn (bareRequest HTTP_POST) ⟨"toggle"⟩) = [LOW] ∧
    statuses (app._handlePostRequestStrFn (bareRequest HTTP_POST) ⟨"echo", fun b => b⟩) = [400] ∧
    ledWrites (app._handlePostRequestStrFn (bareRequest HTTP_POST) ⟨"echo", fun b => b⟩) = [LOW] := by
  refine ⟨rfl, rfl, rfl, rfl, rfl, rfl, rfl⟩

/-! ## The not-found responder -/

theorem responsesFrom_quiet_append (a b : List Event)
    (ha : ∀ e ∈ a, e.isResponsePart = false) (pending : List (String × String)) :
    responsesFrom pending (a ++ b) = responsesFrom pending b := by
  induction a with
  | nil => rfl
  | cons e rest ih =>
    have he := ha e (List.mem_cons_self _ _)
    have hrest : ∀ x ∈ rest, x.isResponsePart = false :=
      fun x hx => ha x (List.mem_cons_of_mem _ hx)
    cases e <;> first
      | exact ih hrest
      | exact Bool.noConfusion he

theorem sends_quiet (a : List Event) (ha : ∀ e ∈ a, e.isResponsePart = false) :
    sends a = [] := by
  induction a with
  | nil => rfl
  | cons e rest ih =>
    have he := ha e (List.mem_cons_self _ _)
    have hrest : ∀ x ∈ rest, x.isResponsePart = false :=
      fun x hx => ha x (List.mem_cons_of_mem _ hx)
    cases e <;> first
      | exact ih hrest
      | exact Bool.noConfusion he

theorem argLines_append (a b : List (String × String)) :
    argLines (a ++ b) = argLines a ++ argLines b := by
  induction a with
  | nil => simp [argLines]
  | cons x rest ih => simp [argLines, ih, String.append_assoc]

/-- With at most 255 arguments the counter never wraps: started at `i` with more than
`argCount - i` tests allowed, the loop ends, having appended the lines of the arguments
from `i` on and having made only queries. -/
theorem notFoundLoop_ends (req : Request) (hn : req.argCount ≤ 255) :
    ∀ (fuel i : Nat) (message : String) (tr : List Event),
      i ≤ req.argCount → req.argCount - i < fuel →
      ∃ qs, (∀ e ∈ qs, e.isResponsePart = false) ∧
        ESP8266AutoIOT.notFoundLoop req fuel i message tr
          = some (message ++ argLines (req.args.drop i), tr ++ qs) := by
  intro fuel
  induction fuel with
  | zero => intro i message tr _ hf; omega
  | succ fuel ih =>
    intro i message tr hi hf
    by_cases hlt : i < req.argCount
    · have hwrap : (i + 1) % 256 = i + 1 := Nat.mod_eq_of_lt (by omega)
      obtain ⟨qs, hqs, hloop⟩ := ih (i + 1)
        (message ++ ESP8266AutoIOT.argLine (req.argName i) (req.argAt i))
        (tr ++ [Event.serverArgs, Event.serverArgName i, Event.serverArgAt i])
        (by omega) (by omega)
      refine ⟨[Event.serverArgs, Event.serverArgName i, Event.serverArgAt i] ++ qs, ?_, ?_⟩
      · intro e he
        rcases List.mem_append.mp he with h | h
        · simp at h
          rcases h with h | h | h <;> subst h <;> rfl
        · exact hqs e h
      · have hlt2 : i < req.args.length := hlt
        have hdrop : req.args.drop i = req.args[i] :: req.args.drop (i + 1) :=
          List.drop_eq_getElem_cons hlt2
        have hname : req.argName i = (req.args[i]).1 := by
          simp [Request.argName, List.get?_eq_getElem?, List.getElem?_eq_getElem hlt2]
        have hat : req.argAt i = (req.args[i]).2 := by
          simp [Request.argAt, List.get?_eq_getElem?, List.getElem?_eq_getElem hlt2]
        rw [ESP8266AutoIOT.notFoundLoop, if_pos hlt, hwrap, hloop, hdrop, hname, hat]
        simp only [argLines, String.append_assoc, List.append_assoc]
    · have hi2 : i = req.args.length := by
        have : req.argCount = req.args.length := rfl
        omega
      refine ⟨[Event.serverArgs], ?_, ?_⟩
      · intro e he
        simp at he
        subst he; rfl
      · have hdrop : req.args.drop i = [] := by
          rw [hi2]; exact List.drop_length _
        simp [ESP8266AutoIOT.notFoundLoop, hlt, hdrop, argLines]

/-- With 256 arguments or more the counter stays below 256 and so below the argument
count: the loop test never fails. -/
theorem notFoundLoop_spins (req : Request) (hn : 256 ≤ req.argCount) :
    ∀ (fuel i : Nat) (message : String) (tr : List Event),
      i < 256 → ESP8266AutoIOT.notFoundLoop req fuel i message tr = none := by
  intro fuel
  induction fuel with
  | zero => intro i message tr _; rfl
  | succ fuel ih =>
    intro i message tr hi
    have hlt : i < req.argCount := by omega
    simp only [ESP8266AutoIOT.notFoundLoop, if_pos hlt]
    exact ih _ _ _ (Nat.mod_lt _ (by decide))

theorem quiet_digitalWrite (self : ESP8266AutoIOT) (v : Nat) :
    ∀ e ∈ self._digitalWrite v, e.isResponsePart = false := by
  intro e he
  unfold ESP8266AutoIOT._digitalWrite at he
  split at he
  · simp at he; subst he; rfl
  · simp at he

/-- With at most 255 arguments and more loop tests allowed than there are arguments,
`_handleNotFound` returns: it switches the LED on, queries the server, sends the 404
with the assembled message and switches the LED off. -/
theorem handleNotFound_ends (self : ESP8266AutoIOT) (req : Request) (fuel : Nat)
    (hn : req.args.length ≤ 255) (hf : req.args.length < fuel) :
    ∃ qs, (∀ e ∈ qs, e.isResponsePart = false) ∧
      self._handleNotFound req fuel
        = some (self._ledOn ++ [Event.serverUri, Event.serverMethod, Event.serverArgs] ++ qs ++
            [Event.send 404 (some "text/plain")
              ("File Not Found\n\n" ++ "URI: " ++ req.uri ++ "\nMethod: "
                ++ (if req.method = HTTP_GET then "GET" else "POST")
                ++ "\nArguments: " ++ toString req.args.length ++ "\n" ++ argLines req.args)] ++
            self._ledOff) := by
  obtain ⟨qs, hqs, hloop⟩ := notFoundLoop_ends req hn fuel 0
    ("File Not Found\n\n" ++ "URI: " ++ req.uri ++ "\nMethod: "
      ++ (if req.method = HTTP_GET then "GET" else "POST")
      ++ "\nArguments: " ++ toString req.args.length ++ "\n")
    (self._ledOn ++ [Event.serverUri, Event.serverMethod, Event.serverArgs])
    (Nat.zero_le _) (by simpa [Request.argCount] using hf)
  rw [List.drop_zero] at hloop
  refine ⟨qs, hqs, ?_⟩
  simp only [ESP8266AutoIOT._handleNotFound, Request.argCount]
  rw [hloop]

/-- C10, at a request with 256 arguments: however many loop tests are allowed,
`_handleNotFound` does not get past its argument loop, so it sends no response. -/
theorem not_found_never_answers_256_arguments :
    crowdedRequest.argCount = 256 ∧ ∀ fuel, app._handleNotFound crowdedRequest fuel = none := by
  have hc : crowdedRequest.argCount = 256 := by
    simp only [Request.argCount, crowdedRequest, List.length_replicate]
  refine ⟨hc, fun fuel => ?_⟩
  simp only [ESP8266AutoIOT._handleNotFound]
  rw [notFoundLoop_spins crowdedRequest (by omega) fuel 0 _ _ (by decide)]

/-- C5: for a request with at most 255 arguments whose method is GET or POST, the
not-found responder (given more loop tests than there are arguments) sends exactly one
response, `404 text/plain`, whose body is the heading, the `URI: `, `Method: ` and
`Arguments: ` lines and then one line per argument in argument order; so the body
contains each of these. -/
theorem not_found_body (self : ESP8266AutoIOT) (req : Request) (fuel : Nat)
    (hn : req.args.length ≤ 255) (hm : req.method = HTTP_GET ∨ req.method = HTTP_POST)
    (hf : req.args.length < fuel) :
    ∃ tr body, self._handleNotFound req fuel = some tr ∧
      sends tr = [(404, some "text/plain", body)] ∧
      body = "File Not Found\n\n" ++ "URI: " ++ req.uri ++ "\nMethod: " ++ req.method.name
              ++ "\nArguments: " ++ toString req.args.length ++ "\n" ++ argLines req.args ∧
      occursIn ("URI: " ++ req.uri) body ∧
      occursIn ("Method: " ++ req.method.name) body ∧
      occursIn ("Arguments: " ++ toString req.args.length) body ∧
      ∀ (i : Nat) (hi : i < req.args.length),
        occursIn (" " ++ (req.args.get ⟨i, hi⟩).1 ++ ": " ++ (req.args.get ⟨i, hi⟩).2 ++ "\n")
          body := by
  have hname : (if req.method = HTTP_GET then "GET" else "POST") = req.method.name := by
    rcases hm with h | h <;> simp [h, HTTPMethod.name]
  obtain ⟨qs, hqs, hrun⟩ := handleNotFound_ends self req fuel hn hf
  rw [hname] at hrun
  refine ⟨self._ledOn ++ [Event.serverUri, Event.serverMethod, Event.serverArgs] ++ qs ++
      [Event.send 404 (some "text/plain")
        ("File Not Found\n\n" ++ "URI: " ++ req.uri ++ "\nMethod: " ++ req.method.name
          ++ "\nArguments: " ++ toString req.args.length ++ "\n" ++ argLines req.args)] ++
      self._ledOff, _, ?_, ?_, rfl, ?_, ?_, ?_, ?_⟩
  · exact hrun
  · simp [sends_append, sends_quiet qs hqs, ESP8266AutoIOT._ledOn, ESP8266AutoIOT._ledOff,
      sends_digitalWrite, sends]
  · exact ⟨"File Not Found\n\n", "\nMethod: " ++ req.method.name ++ "\nArguments: "
      ++ toString req.args.length ++ "\n" ++ argLines req.args, by simp only [String.append_assoc]⟩
  · refine ⟨"File Not Found\n\n" ++ "URI: " ++ req.uri ++ "\n", "\nArguments: "
      ++ toString req.args.length ++ "\n" ++ argLines req.args, ?_⟩
    have : "\nMethod: " = "\n" ++ "Method: " := rfl
    rw [this]
    simp only [String.append_assoc]
  · refine ⟨"File Not Found\n\n" ++ "URI: " ++ req.uri ++ "\nMethod: " ++ req.method.name
      ++ "\n", "\n" ++ argLines req.args, ?_⟩
    have : "\nArguments: " = "\n" ++ "Arguments: " := rfl
    rw [this]
    simp only [String.append_assoc]
  · intro i hi
    refine ⟨"File Not Found\n\n" ++ "URI: " ++ req.uri ++ "\nMethod: " ++ req.method.name
      ++ "\nArguments: " ++ toString req.args.length ++ "\n" ++ argLines (req.args.take i),
      argLines (req.args.drop (i + 1)), ?_⟩
    have hsplit : req.args = req.args.take i ++ req.args.get ⟨i, hi⟩ :: req.args.drop (i + 1) := by
      rw [List.get_eq_getElem, ← List.drop_eq_getElem_cons hi, List.take_append_drop]
    have hlines : argLines req.args = argLines (req.args.take i) ++
        ((" " ++ (req.args.get ⟨i, hi⟩).1 ++ ": " ++ (req.args.get ⟨i, hi⟩).2 ++ "\n") ++
          argLines (req.args.drop (i + 1))) := by
      conv_lhs => rw [hsplit]
      rw [argLines_append]
      simp only [argLines, ESP8266AutoIOT.argLine, String.append_assoc]
    rw [hlines]
    simp only [String.append_assoc]

/-- Witness for `not_found_body`: `GET /missing?x=1`. -/
theorem not_found_body_witness :
    ∃ tr, app._handleNotFound missingRequest 2 = some tr ∧
      sends tr = [(404, some "text/plain",
        "File Not Found\n\nURI: /missing\nMethod: GET\nArguments: 1\n x: 1\n")] ∧
      occursIn "URI: /missing" "File Not Found\n\nURI: /missing\nMethod: GET\nArguments: 1\n x: 1\n" ∧
      occursIn "Method: GET" "File Not Found\n\nURI: /missing\nMethod: GET\nArguments: 1\n x: 1\n" ∧
      occursIn "Arguments: 1" "File Not Found\n\nURI: /missing\nMethod: GET\nArguments: 1\n x: 1\n" ∧
      occursIn " x: 1" "File Not Found\n\nURI: /missing\nMethod: GET\nArguments: 1\n x: 1\n" := by
  obtain ⟨tr, body, h1, h2, h3, h4, h5, h6, h7⟩ :=
    not_found_body app missingRequest 2 (by decide) (Or.inl rfl) (by decide)
  have hb : body = "File Not Found\n\nURI: /missing\nMethod: GET\nArguments: 1\n x: 1\n" := by
    rw [h3]; decide
  rw [hb] at h2 h4 h5 h6
  exact ⟨tr, h1, h2, h4, h5, h6,
    ⟨"File Not Found\n\nURI: /missing\nMethod: GET\nArguments: 1\n", "\n", by decide⟩⟩

/-! ## The CORS header -/

/-- C3, as the code has it: a constructor leaves CORS disabled and `enableCors(origin)`
enables it with that origin; every dispatch of a route handler sends one response, and
this response carries `Access-Control-Allow-Origin` exactly when CORS is enabled and the
request passed the method check (the 200 and 400 outcomes), its value then being the
configured origin; the 405 response and the 404 of the not-found responder never carry
the header. -/
theorem cors_header_rule (h : Handler) (self : ESP8266AutoIOT) (req : Request) (fuel : Nat)
    (origin : String) (ctor : Ctor) (led : Nat) :
    (Ctor.build led ctor)._corsEnabled = false ∧
    ((self.enableCorsOrigin origin)._corsEnabled = true ∧
      (self.enableCorsOrigin origin)._corsOrigin = origin) ∧
    (responses (h.run self req)).map Response.corsOrigins
      = [if self._corsEnabled = true ∧ req.method = h.declaredMethod
          then [self._corsOrigin] else []] ∧
    (req.args.length ≤ 255 → req.args.length < fuel →
      (self._handleNotFound req fuel).map (fun tr => (responses tr).map Response.corsOrigins)
        = some [[]]) := by
  refine ⟨?_, ⟨rfl, rfl⟩, ?_, ?_⟩
  · cases ctor <;> rfl
  · cases h <;> by_cases hg : req.method = HTTP_GET <;> by_cases hp : req.method = HTTP_POST <;>
      cases hb : req.hasArg "plain" <;> cases hc : self._corsEnabled <;>
      cases hl : self._ledEnabled <;>
      simp_all [Handler.run, Handler.declaredMethod, responses, responsesFrom,
        Response.corsOrigins,
        ESP8266AutoIOT._handleGetRequestStr,
        ESP8266AutoIOT._handleGetRequestVoidFn, ESP8266AutoIOT._handleGetRequestStrFn,
        ESP8266AutoIOT._handlePostRequestVoidFn, ESP8266AutoIOT._handlePostRequestStrFn,
        ESP8266AutoIOT._ledOn, ESP8266AutoIOT._ledOff, ESP8266AutoIOT._digitalWrite,
        ESP8266AutoIOT._sendCorsHeaderIfEnabled]
  · intro hn hf
    obtain ⟨qs, hqs, hrun⟩ := handleNotFound_ends self req fuel hn hf
    have hquiet : ∀ e ∈ self._ledOn ++ [Event.serverUri, Event.serverMethod, Event.serverArgs]
        ++ qs, e.isResponsePart = false := by
      intro e he
      rcases List.mem_append.mp he with h1 | h1
      · rcases List.mem_append.mp h1 with h2 | h2
        · exact quiet_digitalWrite self _ e h2
        · simp at h2
          rcases h2 with h2 | h2 | h2 <;> subst h2 <;> rfl
      · exact hqs e h1
    have hoff : responsesFrom [] self._ledOff = [] := by
      have h := responsesFrom_quiet_append self._ledOff []
        (quiet_digitalWrite self self._LED_OFF) []
      rw [List.append_nil] at h
      exact h
    rw [hrun]
    simp only [Option.map_some', responses, List.append_assoc]
    rw [← List.append_assoc, ← List.append_assoc, responsesFrom_quiet_append _ _ hquiet []]
    simp [responsesFrom, hoff, Response.corsOrigins]

/-- Witness for `cors_header_rule`: with CORS enabled for `https://example.com`, the 200
of a GET route carries the header and the 404 for `GET /missing?x=1` does not. -/
theorem cors_header_rule_witness :
    (responses ((Handler.getStr "hello" false).run (app.enableCorsOrigin "https://example.com")
        (bareRequest HTTP_GET))).map Response.corsOrigins = [["https://example.com"]] ∧
    ((app.enableCorsOrigin "https://example.com")._handleNotFound missingRequest 2).map
        (fun tr => (responses tr).map Response.corsOrigins) = some [[]] :=
  ⟨(cors_header_rule (Handler.getStr "hello" false) (app.enableCorsOrigin "https://example.com")
      (bareRequest HTTP_GET) 2 "https://example.com" Ctor.default 2).2.2.1,
   (cors_header_rule (Handler.getStr "hello" false) (app.enableCorsOrigin "https://example.com")
      missingRequest 2 "https://example.com" Ctor.default 2).2.2.2 (by decide) (by decide)⟩

/-- C3 fails as stated: after `enableCors("https://example.com")` the 405 sent to a POST on
a GET route and the 404 sent for `GET /missing?x=1` carry no
`Access-Control-Allow-Origin` header. -/
theorem cors_header_absent_on_405_and_404 :
    (app.enableCorsOrigin "https://example.com")._corsEnabled = true ∧
    (responses ((Handler.getStr "hello" false).run (app.enableCorsOrigin "https://example.com")
        (bareRequest HTTP_POST))).map (fun r => (r.code, r.corsOrigins)) = [(405, [])] ∧
    ((app.enableCorsOrigin "https://example.com")._handleNotFound missingRequest 2).map
        (fun tr => (responses tr).map (fun r => (r.code, r.corsOrigins))) = some [(404, [])] := by
  refine ⟨rfl, ?_, ?_⟩ <;> decide

/-! ## The root path -/

theorem rootBindingCount_append (a b : List Event) :
    rootBindingCount (a ++ b) = rootBindingCount a + rootBindingCount b := by
  simp [rootBindingCount, bindings_append]

theorem build_rootHandled (led : Nat) (ctor : Ctor) : (Ctor.build led ctor)._rootHandled = false := by
  cases ctor with
  | default => rfl
  | ota enableOTA => rfl
  | ap accessPoint password => cases accessPoint <;> cases password <;> rfl
  | apOta accessPoint password enableOTA => cases accessPoint <;> cases password <;> rfl

theorem apply_rootHandled (self : ESP8266AutoIOT) (c : Call) :
    (c.apply self).1._rootHandled = (self._rootHandled || c.isRoot) := by
  cases c <;> simp [Call.apply, Call.isRoot, ESP8266AutoIOT.getStrFnHtml,
    ESP8266AutoIOT.getStrFn, ESP8266AutoIOT.getVoidFn, ESP8266AutoIOT.getStr,
    ESP8266AutoIOT.getStrHtml, ESP8266AutoIOT.postVoidFn, ESP8266AutoIOT.postStrFn,
    ESP8266AutoIOT.rootFn, ESP8266AutoIOT.root, ESP8266AutoIOT.disableLED,
    ESP8266AutoIOT.enableCors, ESP8266AutoIOT.enableCorsOrigin]

theorem apply_rootBindingCount (self : ESP8266AutoIOT) (c : Call)
    (hg : c.isGetSlash = false) (hp : c.isPostSlash = false) :
    rootBindingCount (c.apply self).2 = if c.isRoot then 1 else 0 := by
  cases c <;> simp_all [Call.apply, Call.isRoot, Call.isGetSlash, Call.isPostSlash,
    rootBindingCount, bindings, ESP8266AutoIOT.getStrFnHtml,
    ESP8266AutoIOT.getStrFn, ESP8266AutoIOT.getVoidFn, ESP8266AutoIOT.getStr,
    ESP8266AutoIOT.getStrHtml, ESP8266AutoIOT.postVoidFn, ESP8266AutoIOT.postStrFn,
    ESP8266AutoIOT.rootFn, ESP8266AutoIOT.root]

theorem runCalls_rootHandled (calls : List Call) :
    ∀ self : ESP8266AutoIOT,
      (runCalls self calls).1._rootHandled = (self._rootHandled || calls.any Call.isRoot) := by
  induction calls with
  | nil => intro self; simp [runCalls]
  | cons c cs ih =>
    intro self
    simp only [runCalls, List.any_cons]
    rw [ih, apply_rootHandled, Bool.or_assoc]

theorem runCalls_rootBindingCount (calls : List Call)
    (hs : ∀ c ∈ calls, c.isGetSlash = false ∧ c.isPostSlash = false) :
    ∀ self : ESP8266AutoIOT,
      rootBindingCount (runCalls self calls).2 = (calls.filter Call.isRoot).length := by
  induction calls with
  | nil => intro self; rfl
  | cons c cs ih =>
    intro self
    have hc := hs c (List.mem_cons_self _ _)
    have hcs : ∀ x ∈ cs, x.isGetSlash = false ∧ x.isPostSlash = false :=
      fun x hx => hs x (List.mem_cons_of_mem _ hx)
    simp only [runCalls]
    rw [rootBindingCount_append, ih hcs, apply_rootBindingCount self c hc.1 hc.2]
    by_cases hr : c.isRoot = true
    · simp [hr]; omega
    · simp [hr]

/-- After a successful join, `begin()` makes one `server->on` call, for `/` with the
fixed reply `Success` as HTML, when `_rootHandled` is false, and none otherwise. -/
theorem begin_bindings (self : ESP8266AutoIOT) (boot : Boot) (hj : boot.autoConnect = true) :
    bindings (self.begin boot).2
      = if self._rootHandled then [] else [("/", Handler.getStr "Success" true)] := by
  cases hr : self._rootHandled <;> cases hl : self._ledEnabled <;> cases hm : boot.mdns <;>
    cases ho : self._otaEnabled <;>
    simp [ESP8266AutoIOT.begin, ESP8266AutoIOT.beginConnected, hj, hr, hl, hm, ho,
      ESP8266AutoIOT._handleDefaultRoot, ESP8266AutoIOT.root, ESP8266AutoIOT.getStrHtml,
      ESP8266AutoIOT._ledOff, ESP8266AutoIOT._digitalWrite, bindings]

/-- C6, as the code has it: when no `get` or `post` call names the path `/`, the API calls
followed by `begin()` with a successful join make as many `server->on` calls for `/` as
there are `root(...)` calls, and one when there is none; so exactly one when `root(...)`
is called at most once. -/
theorem root_binding_count (ctor : Ctor) (led : Nat) (calls : List Call) (boot : Boot)
    (hj : boot.autoConnect = true)
    (hs : ∀ c ∈ calls, c.isGetSlash = false ∧ c.isPostSlash = false) :
    rootBindingCount (program (Ctor.build led ctor) calls boot).2
      = max 1 (calls.filter Call.isRoot).length ∧
    ((calls.filter Call.isRoot).length ≤ 1 →
      rootBindingCount (program (Ctor.build led ctor) calls boot).2 = 1) := by
  have hcount : rootBindingCount (program (Ctor.build led ctor) calls boot).2
      = max 1 (calls.filter Call.isRoot).length := by
    simp only [program]
    rw [rootBindingCount_append, runCalls_rootBindingCount calls hs]
    simp only [rootBindingCount]
    rw [begin_bindings _ boot hj, runCalls_rootHandled, build_rootHandled]
    by_cases hany : calls.any Call.isRoot = true
    · have hpos : 0 < (calls.filter Call.isRoot).length := by
        rw [List.length_pos, ne_eq, List.filter_eq_nil_iff]
        simp only [List.any_eq_true] at hany
        obtain ⟨c, hc, hroot⟩ := hany
        exact fun hall => hall c hc hroot
      simp [hany]; omega
    · have hzero : (calls.filter Call.isRoot).length = 0 := by
        rw [List.length_eq_zero, List.filter_eq_nil_iff]
        intro c hc hroot
        exact hany (List.any_eq_true.mpr ⟨c, hc, hroot⟩)
      simp [hany, hzero]
  refine ⟨hcount, fun hle => ?_⟩
  rw [hcount]; omega

/-- Witness for `root_binding_count`: one `get("/status", ...)` and one `root(...)`. -/
theorem root_binding_count_witness :
    rootBindingCount (program (Ctor.build 2 Ctor.default)
      [Call.getStr "/status" "ok", Call.root "<h1>Hi</h1>"] ⟨true, true, true⟩).2 = 1 :=
  (root_binding_count Ctor.default 2 [Call.getStr "/status" "ok", Call.root "<h1>Hi</h1>"]
    ⟨true, true, true⟩ rfl (by decide)).2 (by decide)

/-- C6 fails as stated: two `root(...)` calls, as well as a single `get("/", ...)`, leave
two `server->on` calls for `/` once `begin()` has run with a successful join. -/
theorem root_bound_twice :
    rootBindingCount (program app [Call.root "a", Call.root "b"] ⟨true, true, true⟩).2 = 2 ∧
    rootBindingCount (program app [Call.getStr "/" "a"] ⟨true, true, true⟩).2 = 2 := by
  constructor <;> decide

/-- C7: on an object fresh from a constructor, when neither `root(...)` nor `get("/", ...)`
was called and the join succeeds, the only `server->on` call of `begin()` binds `/` to the
fixed-string handler for `Success` as HTML, and this handler, on every GET request and
whatever the state of the object, sends exactly one response: 200, `text/html`,
`Success`. -/
theorem default_root_serves_success (ctor : Ctor) (led : Nat) (calls : List Call) (boot : Boot)
    (hj : boot.autoConnect = true)
    (hr : ∀ c ∈ calls, c.isRoot = false ∧ c.isGetSlash = false) :
    bindings ((runCalls (Ctor.build led ctor) calls).1.begin boot).2
      = [("/", Handler.getStr "Success" true)] ∧
    ∀ (self : ESP8266AutoIOT) (req : Request), req.method = HTTP_GET →
      sends ((Handler.getStr "Success" true).run self req)
        = [(200, some "text/html", "Success")] := by
  constructor
  · have hany : calls.any Call.isRoot = false := by
      rw [List.any_eq_false]
      intro c hc
      simp [(hr c hc).1]
    rw [begin_bindings _ boot hj, runCalls_rootHandled, build_rootHandled, hany]
    rfl
  · intro self req hm
    simp [Handler.run, ESP8266AutoIOT._handleGetRequestStr, hm, sends_append,
      ESP8266AutoIOT._ledOn, ESP8266AutoIOT._ledOff, sends_digitalWrite, sends_cors, sends]

/-- Witness for `default_root_serves_success`: a sketch that registers `/status` only. -/
theorem default_root_serves_success_witness :
    bindings ((runCalls (Ctor.build 2 Ctor.default) [Call.getStr "/status" "ok"]).1.begin
      ⟨true, true, true⟩).2 = [("/", Handler.getStr "Success" true)] ∧
    sends ((Handler.getStr "Success" true).run app (bareRequest HTTP_GET))
      = [(200, some "text/html", "Success")] :=
  ⟨(default_root_serves_success Ctor.default 2 [Call.getStr "/status" "ok"] ⟨true, true, true⟩
      rfl (by decide)).1,
   (default_root_serves_success Ctor.default 2 [Call.getStr "/status" "ok"] ⟨true, true, true⟩
      rfl (by decide)).2 app (bareRequest HTTP_GET) rfl⟩

/-! ## A failed join -/

/-- C9: when `autoConnect` reports failure, the run of `begin()` calls `autoConnect` once
and `ESP.restart()` once, and nothing before the restart installs the not-found
responder, starts the HTTP server or arms the firmware-update service; this holds
whether or not `ESP.restart()` hands control back. -/
theorem failed_join_restarts_once (self : ESP8266AutoIOT) (boot : Boot)
    (hf : boot.autoConnect = false) :
    ((self.begin boot).2.filter Event.isAutoConnect).length = 1 ∧
    ((self.begin boot).2.filter Event.isRestart).length = 1 ∧
    (((self.begin boot).2.takeWhile (fun e => !e.isRestart)).all
      (fun e => !e.isServiceStart)) = true ∧
    ((self.begin boot).2.dropWhile (fun e => !e.isRestart)).head? = some Event.restart := by
  cases hr : self._rootHandled <;> cases hl : self._ledEnabled <;> cases hm : boot.mdns <;>
    cases ho : self._otaEnabled <;> cases hb : boot.restartReturns <;>
    simp [ESP8266AutoIOT.begin, ESP8266AutoIOT.beginConnected, hf, hr, hl, hm, ho, hb,
      ESP8266AutoIOT._handleDefaultRoot, ESP8266AutoIOT.root, ESP8266AutoIOT.getStrHtml,
      ESP8266AutoIOT._ledOff, ESP8266AutoIOT._digitalWrite, Event.isAutoConnect,
      Event.isRestart, Event.isServiceStart, List.filter, List.takeWhile, List.dropWhile]

/-- Witness for `failed_join_restarts_once`: the default object, join failed. -/
theorem failed_join_restarts_once_witness :
    ((app.begin ⟨false, true, true⟩).2.filter Event.isAutoConnect).length = 1 ∧
    ((app.begin ⟨false, true, true⟩).2.filter Event.isRestart).length = 1 ∧
    (((app.begin ⟨false, true, true⟩).2.takeWhile (fun e => !e.isRestart)).all
      (fun e => !e.isServiceStart)) = true ∧
    ((app.begin ⟨false, true, true⟩).2.dropWhile (fun e => !e.isRestart)).head?
      = some Event.restart :=
  failed_join_restarts_once app ⟨false, true, true⟩ rfl

end AutoIOT
